import Mathlib

/-!
Verification development for the PostService repository: a shallow embedding
of the cached-valid-users store, the user-lifecycle event consumer, the
post/like repository and the post service plus HTTP controller, together
with theorems settling the specification claims.

Modelling conventions:
- Opaque string identifiers (userId, postId, likeId) are modelled by their
  numeric database keys (Nat); the repository layer of the source parses the
  strings with parseInt and all claims quantify over values that reach the
  database layer.
- Wall-clock timestamps (CURRENT_TIMESTAMP / Sequelize timestamps) are
  modelled as explicit Nat parameters passed to each state-changing step.
- Fallible database and event-bus operations are modelled with Except; a
  thrown JS Error with message m becomes Except.error m.  Injected faults
  (storage outage, publish failure) are explicit Bool parameters.
-/

namespace PostSvc

/-- Row of the cached_valid_users table (cachedUser.repository.ts): user_id
with created_at and updated_at timestamps. -/
structure CachedUser where
  userId : Nat
  createdAt : Nat
  updatedAt : Nat
deriving Repr, DecidableEq

/-- The cached_valid_users table, keyed by user_id (unique). -/
abbrev Cache := List CachedUser

/-- CachedUserRepository.addCachedUser: INSERT INTO cached_valid_users
(user_id) VALUES ($1) ON CONFLICT (user_id) DO UPDATE SET
updated_at = CURRENT_TIMESTAMP. -/
def addCachedUser (userId now : Nat) (c : Cache) : Cache :=
  if c.any (fun r => r.userId == userId) then
    c.map (fun r => if r.userId == userId then { r with updatedAt := now } else r)
  else
    c ++ [{ userId := userId, createdAt := now, updatedAt := now }]

/-- CachedUserRepository.removeCachedUser: DELETE FROM cached_valid_users
WHERE user_id = $1. -/
def removeCachedUser (userId : Nat) (c : Cache) : Cache :=
  c.filter (fun r => r.userId != userId)

/-- CachedUserRepository.findCachedUserById: SELECT * FROM cached_valid_users
WHERE user_id = $1, returning the row or undefined. -/
def findCachedUserById (userId : Nat) (c : Cache) : Option CachedUser :=
  c.find? (fun r => r.userId == userId)

/-- The exists(userId) observation of the Cache Store: whether
findCachedUserById returns a row. -/
def cacheExists (userId : Nat) (c : Cache) : Bool :=
  (findCachedUserById userId c).isSome

/-- The eventType values of consumer.ts that the dispatch switch recognises. -/
inductive LifecycleEventType where
  | userCreated
  | userUpdated
  | userDeleted
deriving Repr, DecidableEq

/-- The JSON string carried in the eventType field for each recognised type. -/
def eventTypeString : LifecycleEventType → String
  | .userCreated => "UserCreated"
  | .userUpdated => "UserUpdated"
  | .userDeleted => "UserDeleted"

/-- A well-formed UserLifecycleEvent (consumer.ts): eventType, userId,
timestamp. -/
structure UserLifecycleEvent where
  eventType : LifecycleEventType
  userId : Nat
  timestamp : Nat
deriving Repr, DecidableEq

/-- Outcome of receiving and JSON-parsing one Kafka message value in
handleUserLifecycleEvent: the message may have no value, fail to parse, or
parse to an object whose userId / eventType fields may each be missing or
falsy (modelled as none). -/
inductive Payload where
  | noValue
  | malformed
  | event (userId : Option Nat) (eventType : Option String)
deriving Repr, DecidableEq

/-- Dispatch switch of handleUserLifecycleEvent over a parsed event with
present userId and eventType: UserCreated and UserUpdated upsert, UserDeleted
removes, anything else is logged and ignored.  dbOk = false injects a store
write failure, which the repository surfaces as a thrown error. -/
def processEvent (dbOk : Bool) (userId : Nat) (eventType : String) (now : Nat)
    (c : Cache) : Except String Cache :=
  if eventType = "UserCreated" then
    if dbOk then .ok (addCachedUser userId now c)
    else .error "Database error while caching user"
  else if eventType = "UserDeleted" then
    if dbOk then .ok (removeCachedUser userId c)
    else .error "Database error while removing cached user"
  else if eventType = "UserUpdated" then
    if dbOk then .ok (addCachedUser userId now c)
    else .error "Database error while caching user"
  else
    .ok c

/-- Per-message handler of the Event Ingestor (handleUserLifecycleEvent in
consumer.ts).  A missing value or malformed payload is logged and dropped;
a payload missing userId or eventType is logged and dropped; the dispatch is
wrapped in try/catch, so a processing failure is logged and swallowed with
the cache unchanged (the single failed statement writes nothing).  The result
is always Except.ok: the handler never propagates an exception. -/
def handleUserLifecycleEvent (dbOk : Bool) (p : Payload) (now : Nat)
    (c : Cache) : Except String Cache :=
  match p with
  | .noValue => .ok c
  | .malformed => .ok c
  | .event uid et =>
    match uid, et with
    | some u, some t =>
      match processEvent dbOk u t now c with
      | .ok c2 => .ok c2
      | .error _ => .ok c
    | _, _ => .ok c

/-- Application of one well-formed lifecycle event through the consumer
handler (with the store healthy), at processing time now. -/
def applyEvent (e : UserLifecycleEvent) (now : Nat) (c : Cache) : Cache :=
  match handleUserLifecycleEvent true
      (.event (some e.userId) (some (eventTypeString e.eventType))) now c with
  | .ok c2 => c2
  | .error _ => c

/-- Application of a sequence of lifecycle events in delivery order, each
paired with its processing time. -/
def applyEvents (es : List (UserLifecycleEvent × Nat)) (c : Cache) : Cache :=
  es.foldl (fun acc p => applyEvent p.1 p.2 acc) c

/-- The type of the last event in the sequence whose userId is u, if any
(later events shadow earlier ones). -/
def lastEventFor (u : Nat) : List (UserLifecycleEvent × Nat) → Option LifecycleEventType
  | [] => none
  | p :: rest =>
    match lastEventFor u rest with
    | some t => some t
    | none => if p.1.userId = u then some p.1.eventType else none

/-- Validity of u according to the last delivered event for u: true when it
was UserCreated or UserUpdated, false when it was UserDeleted or when no
event for u was delivered. -/
def lastEventValid (u : Nat) (es : List (UserLifecycleEvent × Nat)) : Bool :=
  match lastEventFor u es with
  | some .userDeleted => false
  | some _ => true
  | none => false

theorem cacheExists_eq_any (u : Nat) (c : Cache) :
    cacheExists u c = c.any (fun r => r.userId == u) := by
  induction c with
  | nil => rfl
  | cons r rest ih =>
    simp only [cacheExists, findCachedUserById, List.find?, List.any_cons]
    cases h : r.userId == u
    · simpa [h, cacheExists, findCachedUserById] using ih
    · simp [h]

theorem userId_update_updatedAt (r : CachedUser) (v t : Nat) :
    ((if r.userId == v then { r with updatedAt := t } else r) : CachedUser).userId
      = r.userId := by
  split <;> rfl

theorem any_map_update (u v t : Nat) (c : Cache) :
    ((c.map (fun r => if r.userId == v then { r with updatedAt := t } else r)).any
        fun r => r.userId == u)
      = c.any fun r => r.userId == u := by
  induction c with
  | nil => rfl
  | cons r rest ih =>
    simp only [List.map_cons, List.any_cons, ih]
    congr 1
    exact congrArg (· == u) (userId_update_updatedAt r v t)

theorem cacheExists_add (u v t : Nat) (c : Cache) :
    cacheExists u (addCachedUser v t c)
      = if u = v then true else cacheExists u c := by
  simp only [cacheExists_eq_any, addCachedUser]
  by_cases hex : (c.any fun r => r.userId == v) = true
  · rw [if_pos hex, any_map_update]
    by_cases huv : u = v
    · subst huv
      simp [hex]
    · rw [if_neg huv]
  · rw [if_neg hex]
    simp only [List.any_append, List.any_cons, List.any_nil, Bool.or_false]
    by_cases huv : u = v
    · subst huv
      simp
    · have hvu : (v == u) = false := by
        simp only [beq_eq_false_iff_ne, ne_eq]
        exact fun h => huv h.symm
      simp [huv, hvu]

theorem cacheExists_remove (u v : Nat) (c : Cache) :
    cacheExists u (removeCachedUser v c)
      = if u = v then false else cacheExists u c := by
  simp only [cacheExists_eq_any, removeCachedUser]
  induction c with
  | nil => simp
  | cons r rest ih =>
    simp only [List.filter_cons]
    by_cases hrv : r.userId = v
    · have h1 : (r.userId != v) = false := by simp [hrv]
      simp only [h1, Bool.false_eq_true, if_false, ih]
      by_cases huv : u = v
      · simp [huv]
      · have h2 : (r.userId == u) = false := by
          simp only [beq_eq_false_iff_ne, ne_eq, hrv]
          exact fun h => huv h.symm
        simp [huv, List.any_cons, h2]
    · have h1 : (r.userId != v) = true := by simp [hrv]
      simp only [h1, if_true, List.any_cons, ih]
      by_cases huv : u = v
      · subst huv
        have h2 : (r.userId == u) = false := by
          simp only [beq_eq_false_iff_ne, ne_eq]
          exact hrv
        simp [h2]
      · simp [huv]

theorem applyEvent_eq (e : UserLifecycleEvent) (now : Nat) (c : Cache) :
    applyEvent e now c =
      match e.eventType with
      | .userCreated => addCachedUser e.userId now c
      | .userUpdated => addCachedUser e.userId now c
      | .userDeleted => removeCachedUser e.userId c := by
  cases e with
  | mk ty u ts => cases ty <;> rfl

theorem cacheExists_applyEvent (x : Nat) (e : UserLifecycleEvent) (now : Nat) (c : Cache) :
    cacheExists x (applyEvent e now c)
      = if x = e.userId then (e.eventType != .userDeleted) else cacheExists x c := by
  rw [applyEvent_eq]
  cases e with
  | mk ty u ts =>
    by_cases hx : x = u
    · cases ty <;> simp [cacheExists_add, cacheExists_remove, hx]
    · cases ty <;> simp [cacheExists_add, cacheExists_remove, hx]

theorem cacheExists_applyEvents (es : List (UserLifecycleEvent × Nat)) (c : Cache) (u : Nat) :
    cacheExists u (applyEvents es c)
      = match lastEventFor u es with
        | some .userDeleted => false
        | some .userCreated => true
        | some .userUpdated => true
        | none => cacheExists u c := by
  induction es generalizing c with
  | nil => rfl
  | cons p rest ih =>
    have hstep : applyEvents (p :: rest) c = applyEvents rest (applyEvent p.1 p.2 c) := rfl
    rw [hstep, ih]
    simp only [lastEventFor]
    cases h : lastEventFor u rest with
    | some t => cases t <;> rfl
    | none =>
      rw [cacheExists_applyEvent]
      by_cases hpu : p.1.userId = u
      · have hup : u = p.1.userId := hpu.symm
        simp only [hpu, if_pos rfl, if_pos hup]
        cases p.1.eventType <;> rfl
      · have hup : ¬ u = p.1.userId := fun h2 => hpu h2.symm
        simp [hpu, hup]

theorem mem_addCachedUser_updatedAt (u t : Nat) (c : Cache) :
    ∀ r ∈ addCachedUser u t c, r.userId = u → r.updatedAt = t := by
  intro r hr hru
  unfold addCachedUser at hr
  split at hr
  · rcases List.mem_map.mp hr with ⟨r0, hr0, hfr⟩
    cases h0 : (r0.userId == u) with
    | true =>
      rw [if_pos h0] at hfr
      rw [← hfr]
    | false =>
      rw [if_neg (by simp [h0])] at hfr
      subst hfr
      exact absurd hru (by simpa using h0)
  · rcases List.mem_append.mp hr with h | h
    · rename_i hnot
      exact absurd (List.any_eq_true.mpr ⟨r, h, by simp [hru]⟩) hnot
    · simp only [List.mem_singleton] at h
      subst h
      rfl

theorem addCachedUser_eq_self (u t : Nat) (c2 : Cache)
    (hany : (c2.any fun r => r.userId == u) = true)
    (hupd : ∀ r ∈ c2, r.userId = u → r.updatedAt = t) :
    addCachedUser u t c2 = c2 := by
  unfold addCachedUser
  rw [if_pos hany]
  have hpt : ∀ r ∈ c2, (if r.userId == u then { r with updatedAt := t } else r) = r := by
    intro r hr
    by_cases h : r.userId = u
    · have hb : (r.userId == u) = true := by simp [h]
      rw [if_pos hb]
      have ht := hupd r hr h
      cases r
      simp_all
    · have hb : (r.userId == u) = false := by simp [h]
      rw [if_neg (by simp [hb])]
  calc c2.map (fun r => if r.userId == u then { r with updatedAt := t } else r)
      = c2.map id := List.map_congr_left hpt
    _ = c2 := List.map_id c2

theorem addCachedUser_idem (u t : Nat) (c : Cache) :
    addCachedUser u t (addCachedUser u t c) = addCachedUser u t c := by
  apply addCachedUser_eq_self
  · have h := cacheExists_add u u t c
    rw [if_pos rfl] at h
    rw [cacheExists_eq_any] at h
    exact h
  · exact mem_addCachedUser_updatedAt u t c

theorem removeCachedUser_idem (u : Nat) (c : Cache) :
    removeCachedUser u (removeCachedUser u c) = removeCachedUser u c := by
  simp only [removeCachedUser]
  induction c with
  | nil => rfl
  | cons r rest ih =>
    simp only [List.filter_cons]
    cases h : (r.userId != u) with
    | true => simp [h, ih]
    | false => simp [h, ih]

theorem applyEvent_idem (e : UserLifecycleEvent) (t : Nat) (c : Cache) :
    applyEvent e t (applyEvent e t c) = applyEvent e t c := by
  cases e with
  | mk ty u ts =>
    cases ty
    · simpa [applyEvent_eq] using addCachedUser_idem u t c
    · simpa [applyEvent_eq] using addCachedUser_idem u t c
    · simpa [applyEvent_eq] using removeCachedUser_idem u c

/-- C1: for every sequence of UserCreated, UserUpdated and UserDeleted events
applied one at a time in delivery order by the Event Ingestor's message
handler, exists(userId) afterwards is true iff the last applied event for
that key was UserCreated or UserUpdated (false if it was UserDeleted or no
event for that key was applied); and applying the same event twice in
succession yields the same cache state as applying it once (and the same
exists observations even when the two processing timestamps differ). -/
theorem C1_cache_reflects_last_event :
    (∀ (es : List (UserLifecycleEvent × Nat)) (u : Nat),
        cacheExists u (applyEvents es []) = lastEventValid u es)
    ∧ (∀ (e : UserLifecycleEvent) (t : Nat) (c : Cache),
        applyEvent e t (applyEvent e t c) = applyEvent e t c)
    ∧ (∀ (e : UserLifecycleEvent) (t t2 : Nat) (c : Cache) (u : Nat),
        cacheExists u (applyEvent e t2 (applyEvent e t c))
          = cacheExists u (applyEvent e t c)) := by
  refine ⟨?_, applyEvent_idem, ?_⟩
  · intro es u
    rw [cacheExists_applyEvents]
    unfold lastEventValid
    cases h : lastEventFor u es with
    | some t => cases t <;> rfl
    | none => rfl
  · intro e t t2 c u
    rw [cacheExists_applyEvent, cacheExists_applyEvent]
    by_cases hu : u = e.userId <;> simp [hu]

/-- Stored row of the posts table (PostModel in post.repository.ts). -/
structure PostRow where
  postId : Nat
  userId : Nat
  title : String
  content : String
  createdAt : Nat
  updatedAt : Nat
deriving Repr, DecidableEq

/-- Stored row of the likes table (LikeModel), unique on (user_id, post_id). -/
structure LikeRow where
  likeId : Nat
  userId : Nat
  postId : Nat
  createdAt : Nat
deriving Repr, DecidableEq

/-- The relational store of the Post/Like Aggregate Store, with the
auto-increment counters for post_id and like_id. -/
structure DB where
  posts : List PostRow
  likes : List LikeRow
  nextPostId : Nat
  nextLikeId : Nat
deriving Repr, DecidableEq

/-- Post DTO returned by the repository (toPost): stored columns plus the
derived likeCount and hasUserLiked read-time aggregations. -/
structure PostDTO where
  postId : Nat
  userId : Nat
  title : String
  content : String
  createdAt : Nat
  updatedAt : Nat
  likeCount : Nat
  hasUserLiked : Bool
deriving Repr, DecidableEq

/-- PostRepository.countLikesForPost: COUNT of likes rows for the post. -/
def countLikesForPost (postId : Nat) (db : DB) : Nat :=
  (db.likes.filter (fun l => l.postId == postId)).length

/-- The EXISTS subquery of getPostFindOptions: whether the requesting viewer
has a like row for the post. -/
def hasLikedIn (userId postId : Nat) (db : DB) : Bool :=
  db.likes.any (fun l => l.postId == postId && l.userId == userId)

/-- PostRepository.toPost applied to a row fetched with the aggregation
options of getPostFindOptions: likeCount from COUNT, hasUserLiked from the
viewer EXISTS subquery (false when no viewer was supplied). -/
def toPost (requesting : Option Nat) (db : DB) (r : PostRow) : PostDTO :=
  { postId := r.postId, userId := r.userId, title := r.title,
    content := r.content, createdAt := r.createdAt, updatedAt := r.updatedAt,
    likeCount := countLikesForPost r.postId db,
    hasUserLiked := match requesting with
      | some u => hasLikedIn u r.postId db
      | none => false }

/-- PostRepository.toPost applied to a row fetched without aggregation
options (the findByPk call in updatePost): the likeCount attribute is absent
so parseInt falls back to 0 and hasUserLiked to false. -/
def toPostNoAgg (r : PostRow) : PostDTO :=
  { postId := r.postId, userId := r.userId, title := r.title,
    content := r.content, createdAt := r.createdAt, updatedAt := r.updatedAt,
    likeCount := 0, hasUserLiked := false }

/-- Lookup of the stored posts row by primary key. -/
def findPostRow (postId : Nat) (db : DB) : Option PostRow :=
  db.posts.find? (fun r => r.postId == postId)

/-- PostRepository.findPostById: findOne with the aggregation options,
mapped through toPost; undefined when absent. -/
def findPostById (postId : Nat) (requesting : Option Nat) (db : DB) : Option PostDTO :=
  (findPostRow postId db).map (toPost requesting db)

/-- PostRepository.createPost: INSERT the row (fresh auto-increment post_id,
both timestamps now), then return the DTO with likeCount zero-initialised
and hasUserLiked false. -/
def repoCreatePost (userId : Nat) (title content : String) (now : Nat) (db : DB) :
    PostDTO × DB :=
  let row : PostRow :=
    { postId := db.nextPostId, userId := userId, title := title,
      content := content, createdAt := now, updatedAt := now }
  let db2 : DB := { db with posts := db.posts ++ [row], nextPostId := db.nextPostId + 1 }
  ({ postId := row.postId, userId := row.userId, title := row.title,
     content := row.content, createdAt := row.createdAt, updatedAt := row.updatedAt,
     likeCount := 0, hasUserLiked := false }, db2)

/-- The title / content update payload (PostUpdateAttributes). -/
structure PostUpdateAttributes where
  title : Option String
  content : Option String
deriving Repr, DecidableEq

/-- PostRepository.updatePost: with no fields to update, re-fetch via
findPostById; otherwise UPDATE the matching row (title / content, updated_at
refreshed by Sequelize timestamps) and return the findByPk row through
toPost without aggregations. -/
def repoUpdatePost (postId : Nat) (upd : PostUpdateAttributes) (now : Nat) (db : DB) :
    Option PostDTO × DB :=
  if upd.title.isNone && upd.content.isNone then
    (findPostById postId none db, db)
  else
    let db2 : DB :=
      { db with posts := db.posts.map (fun r =>
          if r.postId == postId then
            { r with title := upd.title.getD r.title,
                     content := upd.content.getD r.content,
                     updatedAt := now }
          else r) }
    match db2.posts.find? (fun r => r.postId == postId) with
    | some r => (some (toPostNoAgg r), db2)
    | none => (none, db2)

/-- PostRepository.deletePost: a single transaction that destroys the likes
rows of the post, destroys the post row, and commits; any step failure rolls
the transaction back (no state survives) and rethrows a database error.
likesFail / postFail inject a failure of the respective destroy. -/
def repoDeletePost (postId : Nat) (likesFail postFail : Bool) (db : DB) :
    Except String (Bool × DB) :=
  if likesFail then .error "Database error: likes destroy failed"
  else
    let dbL : DB := { db with likes := db.likes.filter (fun l => l.postId != postId) }
    if postFail then .error "Database error: post destroy failed"
    else
      let deleted := db.posts.any (fun r => r.postId == postId)
      .ok (deleted, { dbL with posts := dbL.posts.filter (fun r => r.postId != postId) })

/-- PostRepository.findLikeByUserAndPost: findOne on (user_id, post_id). -/
def findLikeByUserAndPost (userId postId : Nat) (db : DB) : Option LikeRow :=
  db.likes.find? (fun l => l.userId == userId && l.postId == postId)

/-- The fresh like row INSERTed by createLike: auto-increment like_id,
created_at now. -/
def newLikeRow (userId postId now : Nat) (db : DB) : LikeRow :=
  { likeId := db.nextLikeId, userId := userId, postId := postId, createdAt := now }

/-- PostRepository.createLike: INSERT the like row; on the unique-constraint
violation for (user_id, post_id) the error is caught, the pre-existing like
is looked up and returned, and only if that lookup finds nothing is the
error rethrown as a thrown Like already exists. -/
def repoCreateLike (userId postId now : Nat) (db : DB) : Except String (LikeRow × DB) :=
  if db.likes.any (fun l => l.userId == userId && l.postId == postId) then
    match findLikeByUserAndPost userId postId db with
    | some l => .ok (l, db)
    | none => .error "Like already exists"
  else
    .ok (newLikeRow userId postId now db,
      { db with likes := db.likes ++ [newLikeRow userId postId now db],
                nextLikeId := db.nextLikeId + 1 })

/-- PostRepository.deleteLike: destroy the (user_id, post_id) row; success
reports whether a row was affected. -/
def repoDeleteLike (userId postId : Nat) (db : DB) : Bool × DB :=
  (db.likes.any (fun l => l.userId == userId && l.postId == postId),
   { db with likes := db.likes.filter (fun l => !(l.userId == userId && l.postId == postId)) })

/-- A published PostCreated event (PostCreatedEventData): the full post
snapshot plus eventTimestamp. -/
structure PostEvent where
  post : PostDTO
  eventTimestamp : Nat
deriving Repr, DecidableEq

/-- The whole service state: cached_valid_users, the posts/likes store, and
the list of PostCreated events successfully handed to the event bus. -/
structure ServiceState where
  cache : Cache
  db : DB
  published : List PostEvent
deriving Repr, DecidableEq

/-- PostService.sendPostEvent: hand the event to the producer; a publish
failure is caught and logged, leaving the published list unchanged and
raising nothing. -/
def sendPostEvent (publishFail : Bool) (ev : PostEvent) (published : List PostEvent) :
    List PostEvent :=
  if publishFail then published else published ++ [ev]

/-- The requestingAuthUserId guard at the top of PostService.createPost:
truthy requestingAuthUserId different from the body userId. -/
def authMismatch (reqAuth : Option Nat) (userId : Nat) : Bool :=
  match reqAuth with
  | some a => userId != a
  | none => false

/-- PostService.createPost: Forbidden on auth mismatch; then the Validation
Gate reads the Cache Store (cacheReadFail injects a storage outage, surfaced
as the thrown repository error); a cache miss throws User not found; on a
hit the post is inserted and a PostCreated event is published fire-and-forget
(publishFail swallowed by sendPostEvent). -/
def svcCreatePost (userId : Nat) (title content : String) (reqAuth : Option Nat)
    (cacheReadFail publishFail : Bool) (now : Nat) (s : ServiceState) :
    Except String PostDTO × ServiceState :=
  if authMismatch reqAuth userId then (.error "Forbidden", s)
  else if cacheReadFail then (.error "Database error while finding cached user", s)
  else
    match findCachedUserById userId s.cache with
    | none => (.error "User not found", s)
    | some _ =>
      let (dto, db2) := repoCreatePost userId title content now s.db
      let pub2 := sendPostEvent publishFail { post := dto, eventTimestamp := now } s.published
      (.ok dto, { s with db := db2, published := pub2 })

/-- PostService.updatePost: look up the stored post; Post not found when
absent; Forbidden when the stored userId differs from requestingAuthUserId;
otherwise delegate to the repository update. -/
def svcUpdatePost (postId : Nat) (upd : PostUpdateAttributes) (reqAuth now : Nat)
    (s : ServiceState) : Except String (Option PostDTO) × ServiceState :=
  match findPostById postId none s.db with
  | none => (.error "Post not found", s)
  | some existing =>
    if existing.userId ≠ reqAuth then (.error "Forbidden", s)
    else
      let (res, db2) := repoUpdatePost postId upd now s.db
      (.ok res, { s with db := db2 })

/-- PostService.deletePost: look up the stored post; Post not found when
absent; Forbidden when the stored userId differs from requestingAuthUserId;
otherwise run the transactional repository delete, rethrowing its error with
the state unchanged (rollback). -/
def svcDeletePost (postId reqAuth : Nat) (likesFail postFail : Bool)
    (s : ServiceState) : Except String Bool × ServiceState :=
  match findPostById postId none s.db with
  | none => (.error "Post not found", s)
  | some existing =>
    if existing.userId ≠ reqAuth then (.error "Forbidden", s)
    else
      match repoDeletePost postId likesFail postFail s.db with
      | .error e => (.error e, s)
      | .ok (success, db2) => (.ok success, { s with db := db2 })

/-- PostService.likePost: Post not found when the post is absent; the
Validation Gate then reads the Cache Store and throws User not found on a
miss; otherwise createLike, with the Like already exists error answered by
returning the pre-existing like (idempotent like). -/
def svcLikePost (postId userId now : Nat) (s : ServiceState) :
    Except String LikeRow × ServiceState :=
  match findPostById postId none s.db with
  | none => (.error "Post not found", s)
  | some _ =>
    match findCachedUserById userId s.cache with
    | none => (.error "User not found", s)
    | some _ =>
      match repoCreateLike userId postId now s.db with
      | .ok (l, db2) => (.ok l, { s with db := db2 })
      | .error e =>
        if e = "Like already exists" then
          match findLikeByUserAndPost userId postId s.db with
          | some l => (.ok l, s)
          | none => (.error "Failed to process like action", s)
        else (.error e, s)

/-- PostService.unlikePost: Post not found when the post is absent; the
cache is deliberately not consulted; deleteLike is idempotent (absence of
the like is reported as success = false, not an error). -/
def svcUnlikePost (postId userId : Nat) (s : ServiceState) :
    Except String Bool × ServiceState :=
  match findPostById postId none s.db with
  | none => (.error "Post not found", s)
  | some _ =>
    let (success, db2) := repoDeleteLike userId postId s.db
    (.ok success, { s with db := db2 })

/-- PostService.getLikeCount: Post not found when the post is absent, else
the likes COUNT.  A pure read: no state change. -/
def svcGetLikeCount (postId : Nat) (s : ServiceState) : Except String Nat :=
  match findPostById postId none s.db with
  | none => .error "Post not found"
  | some _ => .ok (countLikesForPost postId s.db)

/-- PostService.hasUserLikedPost: existence of the (user, post) like row,
with no post-existence check. -/
def svcHasUserLikedPost (postId userId : Nat) (s : ServiceState) : Bool :=
  (findLikeByUserAndPost userId postId s.db).isSome

/-- JSON response body shapes produced by PostController. -/
inductive RespBody where
  | msg (m : String)
  | postBody (p : PostDTO)
  | likeBody (l : LikeRow)
  | statusBody (postId userId : Nat) (hasLiked : Bool)
  | countBody (postId count : Nat)
deriving Repr, DecidableEq

/-- An HTTP response: status code and JSON body. -/
structure HttpResponse where
  status : Nat
  body : RespBody
deriving Repr, DecidableEq

/-- Request body of POST /posts; none models a missing or falsy field. -/
structure CreateBody where
  userId : Option Nat
  title : Option String
  content : Option String
deriving Repr, DecidableEq

/-- PostController.createPost: 401 without an authenticated user; 403 when
the body userId does not stringify equal to the authenticated subject; 400
on missing fields; otherwise call the service and map User not found to 400,
Forbidden to 403, and anything else to 500. -/
def ctrlCreatePost (authUserId : Option Nat) (body : CreateBody)
    (cacheReadFail publishFail : Bool) (now : Nat) (s : ServiceState) :
    HttpResponse × ServiceState :=
  match authUserId with
  | none => ({ status := 401, body := .msg "Unauthorized: Missing authentication" }, s)
  | some a =>
    if body.userId ≠ some a then
      ({ status := 403, body := .msg "Forbidden: Cannot create post for another user" }, s)
    else
      match body.userId, body.title, body.content with
      | some u, some t, some c =>
        (match svcCreatePost u t c (some a) cacheReadFail publishFail now s with
         | (.ok post, s2) => ({ status := 201, body := .postBody post }, s2)
         | (.error e, s2) =>
           if e = "User not found" then ({ status := 400, body := .msg e }, s2)
           else if e = "Forbidden" then ({ status := 403, body := .msg e }, s2)
           else ({ status := 500, body := .msg "Internal server error" }, s2))
      | _, _, _ =>
        ({ status := 400,
           body := .msg "Missing required fields: userId, title, content" }, s)

/-- PostController.getPostLikeCount: 200 with the count, 404 on Post not
found, 500 otherwise. -/
def ctrlGetPostLikeCount (postId : Nat) (s : ServiceState) : HttpResponse :=
  match svcGetLikeCount postId s with
  | .ok n => { status := 200, body := .countBody postId n }
  | .error e =>
    if e = "Post not found" then { status := 404, body := .msg "Post not found" }
    else { status := 500, body := .msg "Internal server error" }

/-- PostController.checkUserLike: 401 without an authenticated user, else
200 with the hasLiked flag; there is no post-existence check on this path. -/
def ctrlCheckUserLike (authUserId : Option Nat) (postId : Nat) (s : ServiceState) :
    HttpResponse :=
  match authUserId with
  | none => { status := 401, body := .msg "Unauthorized" }
  | some u =>
    { status := 200, body := .statusBody postId u (svcHasUserLikedPost postId u s) }

/-- A state with nothing cached and an empty posts/likes store. -/
def emptyState : ServiceState :=
  { cache := [],
    db := { posts := [], likes := [], nextPostId := 1, nextLikeId := 1 },
    published := [] }

/-- A state with user 2 cached and one post (post 1 owned by user 1),
no likes yet. -/
def sampleState : ServiceState :=
  { cache := [{ userId := 2, createdAt := 0, updatedAt := 0 }],
    db := { posts := [{ postId := 1, userId := 1, title := "T", content := "C",
                        createdAt := 0, updatedAt := 0 }],
            likes := [], nextPostId := 2, nextLikeId := 1 },
    published := [] }

theorem findCachedUserById_eq_none_of_not_exists (u : Nat) (c : Cache)
    (h : cacheExists u c = false) : findCachedUserById u c = none := by
  cases hfind : findCachedUserById u c with
  | none => rfl
  | some r =>
    rw [cacheExists, hfind] at h
    simp at h

/-- C2: a post-creation request whose userId has no row in the
cached-valid-users store is answered 400 User not found, and the service
state — posts rows and published events included — is left unchanged. -/
theorem C2_uncached_user_create_denied (s : ServiceState) (u : Nat)
    (title content : String) (publishFail : Bool) (now : Nat)
    (h : cacheExists u s.cache = false) :
    ctrlCreatePost (some u) ⟨some u, some title, some content⟩ false publishFail now s
      = ({ status := 400, body := .msg "User not found" }, s) := by
  have hnone := findCachedUserById_eq_none_of_not_exists u s.cache h
  simp [ctrlCreatePost, svcCreatePost, authMismatch, hnone]

/-- C2 witness: the concrete uncached user 999 against the empty state. -/
theorem C2_uncached_user_create_denied_witness :
    cacheExists 999 emptyState.cache = false
    ∧ ctrlCreatePost (some 999) ⟨some 999, some "T", some "C"⟩ false false 0 emptyState
        = ({ status := 400, body := .msg "User not found" }, emptyState) :=
  ⟨by decide,
   C2_uncached_user_create_denied emptyState 999 "T" "C" false 0 (by decide)⟩

/-- C3 counterexample: with a concrete request, the response when the cache
store read fails (500 Internal server error) differs from the response when
the user is merely not cached (400 User not found) — the two conditions are
not collapsed to the same error. -/
theorem C3_store_failure_response_differs :
    (ctrlCreatePost (some 1) ⟨some 1, some "T", some "C"⟩ true false 0 emptyState).1
      ≠ (ctrlCreatePost (some 1) ⟨some 1, some "T", some "C"⟩ false false 0 emptyState).1 := by
  decide

/-- C3 (amended): when the cache store read fails during the Validation Gate
lookup the gate fails closed — the request is denied with the state (posts
and published events included) unchanged — but the caller receives a generic
500 Internal server error, which is distinct from the 400 User not found
answered on a cache miss. -/
theorem C3_store_failure_fails_closed (s : ServiceState) (u : Nat)
    (title content : String) (publishFail : Bool) (now : Nat) :
    ctrlCreatePost (some u) ⟨some u, some title, some content⟩ true publishFail now s
      = ({ status := 500, body := .msg "Internal server error" }, s)
    ∧ ({ status := 500, body := .msg "Internal server error" } : HttpResponse)
      ≠ { status := 400, body := .msg "User not found" } := by
  constructor
  · simp [ctrlCreatePost, svcCreatePost, authMismatch]
  · decide

theorem repoDeletePost_ok (postId : Nat) (lf pf : Bool) (db : DB) (b : Bool) (db2 : DB)
    (h : repoDeletePost postId lf pf db = .ok (b, db2)) :
    db2.posts = db.posts.filter (fun r => r.postId != postId)
    ∧ db2.likes = db.likes.filter (fun l => l.postId != postId)
    ∧ db2.nextPostId = db.nextPostId ∧ db2.nextLikeId = db.nextLikeId := by
  unfold repoDeletePost at h
  cases lf
  · cases pf
    · simp only [Bool.false_eq_true, if_false, Except.ok.injEq, Prod.mk.injEq] at h
      obtain ⟨hb, hdb⟩ := h
      subst hdb
      exact ⟨rfl, rfl, rfl, rfl⟩
    · simp at h
  · simp at h

/-- C4: deletePost removes the post row and all its like rows as one atomic
unit — on success the resulting store is exactly the original minus the post
row and minus every like row with that postId (cache and published events
untouched), and on any failure of either destroy step the whole state is
unchanged; no partial intermediate state is observable. -/
theorem C4_delete_post_atomic (s : ServiceState) (postId reqAuth : Nat)
    (likesFail postFail : Bool) :
    (∀ b s2, svcDeletePost postId reqAuth likesFail postFail s = (.ok b, s2) →
        s2.db.posts = s.db.posts.filter (fun r => r.postId != postId)
        ∧ s2.db.likes = s.db.likes.filter (fun l => l.postId != postId)
        ∧ s2.cache = s.cache ∧ s2.published = s.published)
    ∧ (∀ e s2, svcDeletePost postId reqAuth likesFail postFail s = (.error e, s2) →
        s2 = s) := by
  constructor
  · intro b s2 heq
    unfold svcDeletePost at heq
    split at heq
    · exact absurd heq (by simp)
    · split at heq
      · exact absurd heq (by simp)
      · split at heq
        · exact absurd heq (by simp)
        · rename_i success db2 hdel
          simp only [Prod.mk.injEq, Except.ok.injEq] at heq
          obtain ⟨hb, hs2⟩ := heq
          obtain ⟨hp, hl, _, _⟩ :=
            repoDeletePost_ok postId likesFail postFail s.db success db2 hdel
          subst hs2
          exact ⟨hp, hl, rfl, rfl⟩
  · intro e s2 heq
    unfold svcDeletePost at heq
    split at heq
    · simp only [Prod.mk.injEq] at heq
      exact heq.2.symm
    · split at heq
      · simp only [Prod.mk.injEq] at heq
        exact heq.2.symm
      · split at heq
        · simp only [Prod.mk.injEq] at heq
          exact heq.2.symm
        · exact absurd heq (by simp)

/-- C4 witness: deleting post 1 of the sample state as its owner succeeds
and the store afterwards has no post-1 row and no post-1 likes. -/
theorem C4_delete_post_atomic_witness :
    ∃ s2, svcDeletePost 1 1 false false sampleState = (.ok true, s2)
      ∧ s2.db.posts = sampleState.db.posts.filter (fun r => r.postId != 1)
      ∧ s2.db.likes = sampleState.db.likes.filter (fun l => l.postId != 1) := by
  refine ⟨(svcDeletePost 1 1 false false sampleState).2, rfl, ?_, ?_⟩
  · exact ((C4_delete_post_atomic sampleState 1 1 false false).1 true _ rfl).1
  · exact ((C4_delete_post_atomic sampleState 1 1 false false).1 true _ rfl).2.1

/-- Number of likes rows for a given (userId, postId) pair; the unique index
of the likes table keeps this at most 1. -/
def likePairCount (userId postId : Nat) (db : DB) : Nat :=
  (db.likes.filter (fun l => l.userId == userId && l.postId == postId)).length

theorem find?_append_left_none {α : Type} (p : α → Bool) (l1 l2 : List α)
    (h : l1.find? p = none) : (l1 ++ l2).find? p = l2.find? p := by
  induction l1 with
  | nil => rfl
  | cons a t ih =>
    cases hpa : p a with
    | true =>
      rw [List.find?_cons_of_pos _ hpa] at h
      exact absurd h (by simp)
    | false =>
      have hpa2 : ¬ p a = true := by simp [hpa]
      rw [List.find?_cons_of_neg _ hpa2] at h
      rw [List.cons_append, List.find?_cons_of_neg _ hpa2]
      exact ih h

/-- C5: for a cached user and an existing post, liking the pair twice
returns the same Like record both times with the state after the second call
identical to the state after the first, and the pair ends with exactly one
like row — no second row is ever created. -/
theorem C5_like_idempotent (s : ServiceState) (u p n1 n2 : Nat)
    (hc : cacheExists u s.cache = true)
    (hp : (findPostRow p s.db).isSome = true)
    (hinv : likePairCount u p s.db ≤ 1) :
    ∃ l s1, svcLikePost p u n1 s = (.ok l, s1)
      ∧ svcLikePost p u n2 s1 = (.ok l, s1)
      ∧ likePairCount u p s1.db = 1 := by
  cases hrow : findPostRow p s.db with
  | none =>
    rw [hrow] at hp
    simp at hp
  | some r =>
  cases hcu : findCachedUserById u s.cache with
  | none =>
    rw [cacheExists, hcu] at hc
    simp at hc
  | some cu =>
  have hfindP : findPostById p none s.db = some (toPost none s.db r) := by
    simp [findPostById, hrow]
  by_cases hex : (s.db.likes.any fun l => l.userId == u && l.postId == p) = true
  · obtain ⟨l0, hfl⟩ :
        ∃ l0, (s.db.likes.find? fun l => l.userId == u && l.postId == p) = some l0 := by
      cases hfl : s.db.likes.find? fun l => l.userId == u && l.postId == p with
      | some l0 => exact ⟨l0, rfl⟩
      | none =>
        obtain ⟨x, hx, hpx⟩ := List.any_eq_true.mp hex
        exact absurd hpx (by simpa using List.find?_eq_none.mp hfl x hx)
    have hlike : svcLikePost p u n1 s = (.ok l0, s) := by
      simp [svcLikePost, hfindP, hcu, repoCreateLike, hex, findLikeByUserAndPost, hfl]
    have hge : 1 ≤ likePairCount u p s.db := by
      obtain ⟨x, hx, hpx⟩ := List.any_eq_true.mp hex
      have hmem : x ∈ s.db.likes.filter fun l => l.userId == u && l.postId == p :=
        List.mem_filter.mpr ⟨hx, hpx⟩
      exact Nat.succ_le_of_lt (List.length_pos.mpr (List.ne_nil_of_mem hmem))
    have hlike2 : svcLikePost p u n2 s = (.ok l0, s) := by
      simp [svcLikePost, hfindP, hcu, repoCreateLike, hex, findLikeByUserAndPost, hfl]
    exact ⟨l0, s, hlike, hlike2, Nat.le_antisymm hinv hge⟩
  · have hexf : (s.db.likes.any fun l => l.userId == u && l.postId == p) = false :=
      Bool.eq_false_iff.mpr hex
    have hnone : (s.db.likes.find? fun l => l.userId == u && l.postId == p) = none :=
      List.find?_eq_none.mpr (fun x hx => by
        have := List.any_eq_false.mp hexf x hx
        simpa using this)
    refine ⟨newLikeRow u p n1 s.db,
      { s with db := { s.db with likes := s.db.likes ++ [newLikeRow u p n1 s.db],
                                 nextLikeId := s.db.nextLikeId + 1 } }, ?_, ?_, ?_⟩
    · simp [svcLikePost, hfindP, hcu, repoCreateLike, hexf]
    · have hrow2 : (s.db.posts.find? fun r => r.postId == p) = some r := by
        simpa [findPostRow] using hrow
      have hany2 : ((s.db.likes ++ [newLikeRow u p n1 s.db]).any
            fun l => l.userId == u && l.postId == p) = true := by
        simp [newLikeRow, List.any_append]
      have hfl2 : ((s.db.likes ++ [newLikeRow u p n1 s.db]).find?
            fun l => l.userId == u && l.postId == p)
          = some (newLikeRow u p n1 s.db) := by
        rw [find?_append_left_none _ _ _ hnone]
        simp [List.find?, newLikeRow]
      simp [svcLikePost, findPostById, findPostRow, hrow2, hcu, repoCreateLike, hany2,
        findLikeByUserAndPost, hfl2]
    · simp only [likePairCount, List.filter_append]
      have hfilnil : (s.db.likes.filter fun l => l.userId == u && l.postId == p) = [] :=
        List.filter_eq_nil_iff.mpr (fun x hx => by
          have := List.any_eq_false.mp hexf x hx
          simpa using this)
      simp [hfilnil, newLikeRow]

/-- C5 witness: user 2 (cached) liking post 1 of the sample state twice. -/
theorem C5_like_idempotent_witness :
    ∃ l s1, svcLikePost 1 2 5 sampleState = (.ok l, s1)
      ∧ svcLikePost 1 2 7 s1 = (.ok l, s1)
      ∧ likePairCount 2 1 s1.db = 1 :=
  C5_like_idempotent sampleState 2 1 5 7 (by decide) (by decide) (by decide)

/-- C6: a post is never updated or deleted by a non-owner — whenever the
currently stored post row has a userId different from the authenticated
requester, updatePost and deletePost both fail with Forbidden and the whole
state (post and likes included) is unchanged; the comparison is against the
stored row, the client-supplied update payload being arbitrary. -/
theorem C6_non_owner_forbidden (s : ServiceState) (postId : Nat)
    (upd : PostUpdateAttributes) (reqAuth now : Nat) (likesFail postFail : Bool)
    (row : PostRow)
    (hrow : findPostRow postId s.db = some row)
    (hneq : row.userId ≠ reqAuth) :
    svcUpdatePost postId upd reqAuth now s = (.error "Forbidden", s)
    ∧ svcDeletePost postId reqAuth likesFail postFail s = (.error "Forbidden", s) := by
  have hfind : findPostById postId none s.db = some (toPost none s.db row) := by
    simp [findPostById, hrow]
  have huser : (toPost none s.db row).userId ≠ reqAuth := hneq
  constructor
  · simp [svcUpdatePost, hfind, huser]
  · simp [svcDeletePost, hfind, huser]

/-- C6 witness: user 2 attempting to update and delete post 1 (owned by
user 1) of the sample state. -/
theorem C6_non_owner_forbidden_witness :
    svcUpdatePost 1 ⟨some "X", none⟩ 2 9 sampleState = (.error "Forbidden", sampleState)
    ∧ svcDeletePost 1 2 false false sampleState = (.error "Forbidden", sampleState) :=
  C6_non_owner_forbidden sampleState 1 ⟨some "X", none⟩ 2 9 false false
    { postId := 1, userId := 1, title := "T", content := "C", createdAt := 0, updatedAt := 0 }
    (by decide) (by decide)

/-- C7: for a cached author, the result of createPost — the returned post,
the stored database state and the cache — is identical whether the
PostCreated publish succeeds or fails, and in both cases createPost returns
ok (the publish failure is swallowed, never thrown, and the write is never
rolled back). -/
theorem C7_publish_failure_swallowed (s : ServiceState) (u : Nat)
    (title content : String) (now : Nat)
    (hc : cacheExists u s.cache = true) :
    (svcCreatePost u title content (some u) false true now s).1
      = (svcCreatePost u title content (some u) false false now s).1
    ∧ (svcCreatePost u title content (some u) false true now s).2.db
      = (svcCreatePost u title content (some u) false false now s).2.db
    ∧ (svcCreatePost u title content (some u) false true now s).2.cache
      = (svcCreatePost u title content (some u) false false now s).2.cache
    ∧ (∃ dto s2, svcCreatePost u title content (some u) false true now s
        = (.ok dto, s2)) := by
  cases hcu : findCachedUserById u s.cache with
  | none =>
    rw [cacheExists, hcu] at hc
    simp at hc
  | some cu =>
    refine ⟨?_, ?_, ?_, ?_⟩ <;>
      simp [svcCreatePost, authMismatch, hcu, repoCreatePost, sendPostEvent]

/-- C7 witness: the cached user 2 creating a post in the sample state. -/
theorem C7_publish_failure_swallowed_witness :
    (svcCreatePost 2 "Hello" "World" (some 2) false true 4 sampleState).1
      = (svcCreatePost 2 "Hello" "World" (some 2) false false 4 sampleState).1
    ∧ (svcCreatePost 2 "Hello" "World" (some 2) false true 4 sampleState).2.db
      = (svcCreatePost 2 "Hello" "World" (some 2) false false 4 sampleState).2.db
    ∧ (svcCreatePost 2 "Hello" "World" (some 2) false true 4 sampleState).2.cache
      = (svcCreatePost 2 "Hello" "World" (some 2) false false 4 sampleState).2.cache
    ∧ (∃ dto s2, svcCreatePost 2 "Hello" "World" (some 2) false true 4 sampleState
        = (.ok dto, s2)) :=
  C7_publish_failure_swallowed sampleState 2 "Hello" "World" 4 (by decide)

/-- C8: the per-message handler is total — it always returns ok and never
propagates an exception; a message with no value, an unparseable payload, or
a payload missing userId or eventType is dropped with the cache unchanged;
an unknown eventType is ignored with the cache unchanged; and a store-write
failure is swallowed with the cache unchanged (no retry, no requeue). -/
theorem C8_handler_never_throws (dbOk : Bool) (p : Payload) (now : Nat) (c : Cache) :
    (∃ c2, handleUserLifecycleEvent dbOk p now c = .ok c2)
    ∧ handleUserLifecycleEvent dbOk .noValue now c = .ok c
    ∧ handleUserLifecycleEvent dbOk .malformed now c = .ok c
    ∧ (∀ et, handleUserLifecycleEvent dbOk (.event none et) now c = .ok c)
    ∧ (∀ uid, handleUserLifecycleEvent dbOk (.event uid none) now c = .ok c)
    ∧ (∀ u t, t ≠ "UserCreated" → t ≠ "UserDeleted" → t ≠ "UserUpdated" →
        handleUserLifecycleEvent dbOk (.event (some u) (some t)) now c = .ok c)
    ∧ (∀ uid et, handleUserLifecycleEvent false (.event uid et) now c = .ok c) := by
  refine ⟨?_, rfl, rfl, ?_, ?_, ?_, ?_⟩
  · cases p with
    | noValue => exact ⟨c, rfl⟩
    | malformed => exact ⟨c, rfl⟩
    | event uid et =>
      cases uid with
      | none => exact ⟨c, by cases et <;> rfl⟩
      | some u =>
        cases et with
        | none => exact ⟨c, rfl⟩
        | some t =>
          cases hpe : processEvent dbOk u t now c with
          | ok c2 => exact ⟨c2, by simp [handleUserLifecycleEvent, hpe]⟩
          | error e => exact ⟨c, by simp [handleUserLifecycleEvent, hpe]⟩
  · intro et
    cases et <;> rfl
  · intro uid
    cases uid <;> rfl
  · intro u t h1 h2 h3
    simp [handleUserLifecycleEvent, processEvent, h1, h2, h3]
  · intro uid et
    cases uid with
    | none => cases et <;> rfl
    | some u =>
      cases et with
      | none => rfl
      | some t =>
        simp only [handleUserLifecycleEvent, processEvent]
        by_cases h1 : t = "UserCreated"
        · simp [h1]
        · by_cases h2 : t = "UserDeleted"
          · simp [h1, h2]
          · by_cases h3 : t = "UserUpdated"
            · simp [h1, h2, h3]
            · simp [h1, h2, h3]

/-- C8 witness: an unknown eventType on a healthy store leaves the cache
unchanged and raises nothing. -/
theorem C8_handler_never_throws_witness :
    handleUserLifecycleEvent true (.event (some 7) (some "UserBanned")) 3 [] = .ok [] :=
  (C8_handler_never_throws true (.event (some 7) (some "UserBanned")) 3 []).2.2.2.2.2.1
    7 "UserBanned" (by decide) (by decide) (by decide)

/-- C9: the Cache Store gates only creation — updatePost, deletePost and
unlikePost return the same result and make the same posts/likes/published
change under any two cache contents, while createPost and likePost consult
the cache and answer User not found (state unchanged) when the requesting
user is not cached. -/
theorem C9_cache_gates_only_creation (db : DB) (pub : List PostEvent)
    (c1 c2 : Cache) (postId reqAuth now cu uu pp : Nat)
    (upd : PostUpdateAttributes) (likesFail postFail publishFail : Bool)
    (ti co : String) :
    ((svcUpdatePost postId upd reqAuth now ⟨c1, db, pub⟩).1
        = (svcUpdatePost postId upd reqAuth now ⟨c2, db, pub⟩).1
      ∧ (svcUpdatePost postId upd reqAuth now ⟨c1, db, pub⟩).2.db
        = (svcUpdatePost postId upd reqAuth now ⟨c2, db, pub⟩).2.db
      ∧ (svcUpdatePost postId upd reqAuth now ⟨c1, db, pub⟩).2.published
        = (svcUpdatePost postId upd reqAuth now ⟨c2, db, pub⟩).2.published)
    ∧ ((svcDeletePost postId reqAuth likesFail postFail ⟨c1, db, pub⟩).1
        = (svcDeletePost postId reqAuth likesFail postFail ⟨c2, db, pub⟩).1
      ∧ (svcDeletePost postId reqAuth likesFail postFail ⟨c1, db, pub⟩).2.db
        = (svcDeletePost postId reqAuth likesFail postFail ⟨c2, db, pub⟩).2.db
      ∧ (svcDeletePost postId reqAuth likesFail postFail ⟨c1, db, pub⟩).2.published
        = (svcDeletePost postId reqAuth likesFail postFail ⟨c2, db, pub⟩).2.published)
    ∧ ((svcUnlikePost postId uu ⟨c1, db, pub⟩).1
        = (svcUnlikePost postId uu ⟨c2, db, pub⟩).1
      ∧ (svcUnlikePost postId uu ⟨c1, db, pub⟩).2.db
        = (svcUnlikePost postId uu ⟨c2, db, pub⟩).2.db
      ∧ (svcUnlikePost postId uu ⟨c1, db, pub⟩).2.published
        = (svcUnlikePost postId uu ⟨c2, db, pub⟩).2.published)
    ∧ (cacheExists cu c1 = false →
        svcCreatePost cu ti co (some cu) false publishFail now ⟨c1, db, pub⟩
          = (.error "User not found", ⟨c1, db, pub⟩))
    ∧ (cacheExists cu c1 = false → (findPostRow pp db).isSome = true →
        svcLikePost pp cu now ⟨c1, db, pub⟩ = (.error "User not found", ⟨c1, db, pub⟩)) := by
  refine ⟨?_, ?_, ?_, ?_, ?_⟩
  · cases hf : findPostById postId none db with
    | none => simp [svcUpdatePost, hf]
    | some ex =>
      by_cases hown : ex.userId ≠ reqAuth <;> simp [svcUpdatePost, hf, hown]
  · cases hf : findPostById postId none db with
    | none => simp [svcDeletePost, hf]
    | some ex =>
      by_cases hown : ex.userId ≠ reqAuth
      · simp [svcDeletePost, hf, hown]
      · cases hdel : repoDeletePost postId likesFail postFail db <;>
          simp [svcDeletePost, hf, hown, hdel]
  · cases hf : findPostById postId none db with
    | none => simp [svcUnlikePost, hf]
    | some ex => simp [svcUnlikePost, hf]
  · intro hmiss
    have hnone := findCachedUserById_eq_none_of_not_exists cu c1 hmiss
    simp [svcCreatePost, authMismatch, hnone]
  · intro hmiss hpost
    have hnone := findCachedUserById_eq_none_of_not_exists cu c1 hmiss
    cases hrow : findPostRow pp db with
    | none =>
      rw [hrow] at hpost
      simp at hpost
    | some r => simp [svcLikePost, findPostById, hrow, hnone]

/-- C9 witness: with an empty cache, creating a post for the uncached user 5
over the sample database is denied with User not found and no state change. -/
theorem C9_cache_gates_only_creation_witness :
    svcCreatePost 5 "T" "C" (some 5) false false 0 ⟨[], sampleState.db, []⟩
      = (.error "User not found", ⟨[], sampleState.db, []⟩) :=
  (C9_cache_gates_only_creation sampleState.db [] [] sampleState.cache 1 1 0 5 2 1
    ⟨none, none⟩ false false false "T" "C").2.2.2.1 (by decide)

/-- C10: for a postId with no posts row, getLikeCount fails with Post not
found (404 at the controller) while hasUserLikedPost does not fail — with no
orphan like rows (the likes table references existing posts) it reports
hasLiked = false, a 200 for every authenticated user, because the
like-status path performs no post-existence check. -/
theorem C10_like_status_no_post_check (s : ServiceState) (postId u : Nat)
    (habs : findPostRow postId s.db = none)
    (hfk : ∀ l ∈ s.db.likes, ∃ r ∈ s.db.posts, r.postId = l.postId) :
    svcGetLikeCount postId s = .error "Post not found"
    ∧ ctrlGetPostLikeCount postId s = { status := 404, body := .msg "Post not found" }
    ∧ svcHasUserLikedPost postId u s = false
    ∧ ctrlCheckUserLike (some u) postId s
        = { status := 200, body := .statusBody postId u false } := by
  have hfindP : findPostById postId none s.db = none := by
    simp [findPostById, habs]
  have hget : svcGetLikeCount postId s = .error "Post not found" := by
    simp [svcGetLikeCount, hfindP]
  have hnol : (s.db.likes.find? fun l => l.userId == u && l.postId == postId) = none := by
    cases hfl : s.db.likes.find? fun l => l.userId == u && l.postId == postId with
    | none => rfl
    | some l =>
      have hmem : l ∈ s.db.likes := List.mem_of_find?_eq_some hfl
      have hpl := List.find?_some hfl
      obtain ⟨r, hr, hrp⟩ := hfk l hmem
      have hlp : l.postId = postId := by
        have := (Bool.and_eq_true _ _).mp hpl
        simpa using this.2
      have hne : findPostRow postId s.db ≠ none := by
        unfold findPostRow
        intro hcontra
        exact List.find?_eq_none.mp hcontra r hr (by simp [hrp, hlp])
      exact absurd habs hne
  have hstatus : svcHasUserLikedPost postId u s = false := by
    simp [svcHasUserLikedPost, findLikeByUserAndPost, hnol]
  refine ⟨hget, ?_, hstatus, ?_⟩
  · simp [ctrlGetPostLikeCount, hget]
  · simp [ctrlCheckUserLike, hstatus]

/-- C10 witness: post 99 does not exist in the sample state — count is a
404 while like-status for user 2 is a 200 with hasLiked false. -/
theorem C10_like_status_no_post_check_witness :
    svcGetLikeCount 99 sampleState = .error "Post not found"
    ∧ ctrlGetPostLikeCount 99 sampleState = { status := 404, body := .msg "Post not found" }
    ∧ svcHasUserLikedPost 99 2 sampleState = false
    ∧ ctrlCheckUserLike (some 2) 99 sampleState
        = { status := 200, body := .statusBody 99 2 false } :=
  C10_like_status_no_post_check sampleState 99 2 (by decide)
    (fun l hl => absurd hl (by simp [sampleState]))

end PostSvc
